import Mathlib

/-!
Shallow embedding of the Python snake game (`snake.py`) for checking the
natural-language specification against the code.

Conventions of the embedding:
* Positions are pixel coordinates, pairs of integers (Python tuples of ints).
* Randomness is made explicit: every call the code makes to `random.*` is
  replaced by a parameter carrying the values that call would have drawn
  (a boolean for `random.random() < 0.2`, a stream of candidate positions
  for repeated `random_position()` draws, a type for `random.choice`).
* File contents are modelled at the granularity the code observes them:
  a save file is absent, fails JSON parsing, parses but fails shape
  validation in `load_game_state`, or parses to a valid snapshot.
* The uncapped `while True` food-respawn loop is modelled by searching a
  finite stream of candidate draws; exhaustion (which in Python would be
  nontermination) is modelled as `none`.
-/

namespace SnakeGame

/-- `CELL_SIZE = 20` from the source. -/
def CELL_SIZE : Nat := 20

/-- `FPS = 15` from the source. -/
def FPS : Nat := 15

/-- A board position: a pair of integer pixel coordinates. -/
abbrev Pos := Int × Int

/-- The two powerup type tags of `POWERUP_TYPES`. -/
inductive PType where
  | speedBoost
  | slowDown
deriving DecidableEq, Repr

/-- `POWERUP_TYPES[t]["duration"] = FPS * 5` for both types. -/
def powerupDuration (_ : PType) : Int := (FPS : Int) * 5

/-- A field powerup: position plus type tag (class `Powerup`). -/
structure Powerup where
  pos : Pos
  type : PType
deriving DecidableEq, Repr

/-- Session configuration: screen size and `difficulty["speed"]`. -/
structure Config where
  width : Nat
  height : Nat
  speed : Nat
deriving DecidableEq, Repr

/-- The mutable session state that `game_loop` owns: snake body (head
first), direction, food, obstacles, powerups, score, active powerup and
its timer, and the currently configured move-event interval in ms. -/
structure GameState where
  body : List Pos
  direction : Pos
  foodPos : Pos
  foodSkinIdx : Nat
  obstacles : List Pos
  powerups : List Powerup
  score : Int
  powerupActive : Option PType
  powerupTimer : Int
  interval : Nat
  snakeSkinIdx : Nat
deriving DecidableEq, Repr

/-- `int(1000 / difficulty["speed"])` (line 717): the base move interval. -/
def baseInterval (speed : Nat) : Nat := 1000 / speed

/-- `max(50, int(1000 / (difficulty["speed"] + 10)))`: boosted interval. -/
def boostInterval (speed : Nat) : Nat := max 50 (1000 / (speed + 10))

/-- `int(1000 / max(1, difficulty["speed"] - 5))`: slowed interval. -/
def slowInterval (speed : Nat) : Nat := 1000 / (max 1 (speed - 5))

/-- `max_obstacles = max(10, (grid_width * grid_height * 5) // 1000)`. -/
def maxObstacles (cfg : Config) : Nat :=
  max 10 ((cfg.width / CELL_SIZE) * (cfg.height / CELL_SIZE) * 5 / 1000)

/-- The wall test of line 809: `0 <= head_x < width and 0 <= head_y < height`. -/
def inBounds (cfg : Config) (p : Pos) : Prop :=
  0 ≤ p.1 ∧ p.1 < (cfg.width : Int) ∧ 0 ≤ p.2 ∧ p.2 < (cfg.height : Int)

instance (cfg : Config) (p : Pos) : Decidable (inBounds cfg p) := by
  unfold inBounds; infer_instance

/-- `random_position` draws `i = randint(0, (width-CELL_SIZE)//CELL_SIZE)`
and `j` likewise and returns `(i*CELL_SIZE, j*CELL_SIZE)`. The draw itself
is a parameter `(i, j)`; this is the value it produces. -/
def randomPosition (i j : Nat) : Pos := ((i * CELL_SIZE : Nat), (j * CELL_SIZE : Nat))

/-- The range constraint `randint` imposes on the draw `(i, j)`. -/
def randomDrawValid (cfg : Config) (i j : Nat) : Prop :=
  i ≤ (cfg.width - CELL_SIZE) / CELL_SIZE ∧ j ≤ (cfg.height - CELL_SIZE) / CELL_SIZE

instance (cfg : Config) (i j : Nat) : Decidable (randomDrawValid cfg i j) := by
  unfold randomDrawValid; infer_instance

/-- `start_pos = (grid_width // 2 * CELL_SIZE, grid_height // 2 * CELL_SIZE)`. -/
def startPos (cfg : Config) : Pos :=
  (((cfg.width / CELL_SIZE) / 2 * CELL_SIZE : Nat), ((cfg.height / CELL_SIZE) / 2 * CELL_SIZE : Nat))

/-- The fresh session state built at lines 700-719: length-1 snake at the
grid center, direction right, a randomly drawn food position (passed in as
the value of that draw), no obstacles/powerups, score 0, no active
powerup, move timer at the base interval. -/
def freshState (cfg : Config) (snakeSkin fruitSkin : Nat) (foodPos : Pos) : GameState :=
  { body := [startPos cfg]
    direction := ((CELL_SIZE : Nat), 0)
    foodPos := foodPos
    foodSkinIdx := fruitSkin
    obstacles := []
    powerups := []
    score := 0
    powerupActive := none
    powerupTimer := 0
    interval := baseInterval cfg.speed
    snakeSkinIdx := snakeSkin }

/-! ### The per-move-tick algorithm (lines 804-887) -/

/-- The random draws one move tick may consume, made explicit:
`powerupRoll` is the outcome of `random.random() < 0.2`;
`powerupPositions`, `foodPositions`, `obstaclePositions` are the
successive outputs of the `random_position()` calls each retry loop would
make; `powerupChoice` is the outcome of `random.choice` on the powerup
types. -/
structure TickRand where
  powerupRoll : Bool
  powerupPositions : List Pos
  powerupChoice : PType
  foodPositions : List Pos
  obstaclePositions : List Pos
deriving Repr

/-- What a move tick produces: either the session ends (`game_over(score)`
is invoked and `game_loop` returns) or play continues in a new state. -/
inductive TickOutcome where
  | gameOver (finalScore : Int)
  | next (s : GameState)
deriving DecidableEq, Repr

/-- Lines 831-843: with 20% probability, try up to 100 random draws for a
cell not occupied by the (already advanced) snake body, the food, the
obstacles, or the existing powerups; on success append a powerup of a
randomly chosen type. `body1` is the advanced body. -/
def spawnPowerupPhase (r : TickRand) (body1 : List Pos) (foodPos : Pos)
    (obstacles : List Pos) (pups : List Powerup) : List Powerup :=
  if r.powerupRoll then
    match (r.powerupPositions.take 100).find?
        (fun c => decide (c ∉ body1 ++ [foodPos] ++ obstacles ++ pups.map Powerup.pos)) with
    | some c => pups ++ [⟨c, r.powerupChoice⟩]
    | none => pups
  else pups

/-- Lines 846-852: draw random positions until one avoids the snake body,
the obstacles and the powerups; the loop is uncapped in the source, so
exhausting the modelled draw stream (`none`) stands for nontermination. -/
def respawnFood (r : TickRand) (body1 obstaclePos pupPos : List Pos) : Option Pos :=
  r.foodPositions.find? (fun c => decide (c ∉ body1 ++ obstaclePos ++ pupPos))

/-- Lines 855-865: when the (updated) score is a positive multiple of 20
and the obstacle count is below the cap, try up to 100 random draws for a
free cell and append it as an obstacle. -/
def spawnObstaclePhase (cfg : Config) (r : TickRand) (body1 : List Pos) (foodPos : Pos)
    (pups : List Powerup) (obstacles : List Pos) (score : Int) : List Pos :=
  if score > 0 ∧ score % 20 = 0 ∧ obstacles.length < maxObstacles cfg then
    match (r.obstaclePositions.take 100).find?
        (fun c => decide (c ∉ body1 ++ [foodPos] ++ pups.map Powerup.pos ++ obstacles)) with
    | some c => obstacles ++ [c]
    | none => obstacles
  else obstacles

/-- The powerup/speed/timer fields the last two phases of a tick act on. -/
structure EffectState where
  powerups : List Powerup
  active : Option PType
  timer : Int
  interval : Nat
deriving DecidableEq, Repr

/-- Lines 869-880: if some field powerup sits on the new head, the first
such powerup becomes the active effect with a full duration timer, is
removed from the field, and the move interval is immediately re-set from
its type. -/
def collectPowerup (cfg : Config) (newHead : Pos) (e : EffectState) : EffectState :=
  match e.powerups.find? (fun p => p.pos == newHead) with
  | some p =>
      { powerups := e.powerups.eraseP (fun q => q.pos == newHead)
        active := some p.type
        timer := powerupDuration p.type
        interval :=
          match p.type with
          | PType.speedBoost => boostInterval cfg.speed
          | PType.slowDown => slowInterval cfg.speed }
  | none => e

/-- Lines 883-887: if an effect is active, decrement its timer; at zero or
below, clear the effect and restore the base interval. -/
def tickTimer (cfg : Config) (e : EffectState) : EffectState :=
  match e.active with
  | some pt =>
      let t := e.timer - 1
      if t ≤ 0 then { e with active := none, timer := t, interval := baseInterval cfg.speed }
      else { e with active := some pt, timer := t }
  | none => e

/-- The cause the if-chain of lines 807-821 would report first, mirroring
its evaluation order: wall, then self-body, then obstacle. -/
inductive Cause where
  | wall
  | selfHit
  | obstacle
deriving DecidableEq, Repr

/-- Which fatal condition, if any, a move tick from `s` hits, in the
source's evaluation order over the advanced head. -/
def fatalCause (cfg : Config) (s : GameState) : Option Cause :=
  match s.body with
  | [] => none
  | h :: t =>
    let newHead : Pos := (h.1 + s.direction.1, h.2 + s.direction.2)
    if ¬ inBounds cfg newHead then some Cause.wall
    else if newHead ∈ h :: t then some Cause.selfHit
    else if newHead ∈ s.obstacles then some Cause.obstacle
    else none

/-- One `MOVE_EVENT` tick while not paused (lines 804-887): advance the
head; test wall, self and obstacle collisions in that order, each ending
the session at the current score; otherwise run the food/growth phase
(grow and respawn food, possibly spawning a powerup and an obstacle) or
retract the tail; then collect a powerup under the head, then run the
active-effect timer. `none` models the states on which the Python code
itself produces no successor (empty body, or food respawn never finding a
free cell). -/
def moveTick (cfg : Config) (r : TickRand) (s : GameState) : Option TickOutcome :=
  match s.body with
  | [] => none
  | h :: t =>
    let newHead : Pos := (h.1 + s.direction.1, h.2 + s.direction.2)
    let body1 := newHead :: h :: t
    if ¬ inBounds cfg newHead then some (TickOutcome.gameOver s.score)
    else if newHead ∈ h :: t then some (TickOutcome.gameOver s.score)
    else if newHead ∈ s.obstacles then some (TickOutcome.gameOver s.score)
    else
      let step2 : Option (List Pos × Int × Pos × List Powerup × List Pos) :=
        if newHead = s.foodPos then
          let score1 := s.score + 1
          let pups1 := spawnPowerupPhase r body1 s.foodPos s.obstacles s.powerups
          match respawnFood r body1 s.obstacles (pups1.map Powerup.pos) with
          | none => none
          | some newFood =>
            let obs1 := spawnObstaclePhase cfg r body1 newFood pups1 s.obstacles score1
            some (body1, score1, newFood, pups1, obs1)
        else
          some (body1.dropLast, s.score, s.foodPos, s.powerups, s.obstacles)
      match step2 with
      | none => none
      | some (body2, score2, food2, pups2, obs2) =>
        let e1 := collectPowerup cfg newHead
          { powerups := pups2, active := s.powerupActive,
            timer := s.powerupTimer, interval := s.interval }
        let e2 := tickTimer cfg e1
        some (TickOutcome.next
          { s with
            body := body2
            foodPos := food2
            obstacles := obs2
            powerups := e2.powerups
            score := score2
            powerupActive := e2.active
            powerupTimer := e2.timer
            interval := e2.interval })

/-! ### Save-slot persistence (`save_game`, `load_game`, `load_game_state`) -/

/-- The snapshot produced by `save_game_state` (lines 956-969), with the
optional fields already carrying the defaults that `.get(...)` supplies
when a saved dictionary lacks them. -/
structure SaveDoc where
  snake : List Pos
  direction : Pos
  foodPos : Pos
  foodSkinIdx : Nat
  obstacles : List Pos
  powerups : List Powerup
  score : Int
  powerupActive : Option PType
  powerupTimer : Int
  snakeSkinIdx : Nat
deriving DecidableEq, Repr

/-- The content of the save file at the granularity the code observes:
raises `JSONDecodeError` in `json.load`; parses but makes
`load_game_state` fail (a required field missing or of the wrong shape);
or parses to a snapshot `load_game_state` accepts. -/
inductive SaveContent where
  | malformed
  | parsedBad
  | parsedGood (d : SaveDoc)
deriving DecidableEq, Repr

/-- What `load_game()` hands its caller when it does not return `None`: a
parsed document that `load_game_state` then rejects or accepts. -/
inductive ParsedSave where
  | bad
  | good (d : SaveDoc)
deriving DecidableEq, Repr

/-- `load_game` (lines 675-690) acting on the save file, returning the
Python return value (`None` ↦ `none`) and the file state it leaves
behind: a missing file yields `None`; an unparseable file is deleted and
yields `None`; a parseable file is returned and left in place. -/
def loadGame : Option SaveContent → Option ParsedSave × Option SaveContent
  | none => (none, none)
  | some SaveContent.malformed => (none, none)
  | some SaveContent.parsedBad => (some ParsedSave.bad, some SaveContent.parsedBad)
  | some (SaveContent.parsedGood d) => (some (ParsedSave.good d), some (SaveContent.parsedGood d))

/-- `save_game(save_game_state(...))`: the slot is overwritten with the
snapshot unconditionally. -/
def saveGame (d : SaveDoc) (_ : Option SaveContent) : Option SaveContent :=
  some (SaveContent.parsedGood d)

/-- The interval `game_loop` configures after a successful load
(lines 727-731 and 777-781): re-derived from the loaded active powerup,
left at the base interval otherwise. -/
def loadedInterval (speed : Nat) : Option PType → Nat
  | some PType.speedBoost => boostInterval speed
  | some PType.slowDown => slowInterval speed
  | none => baseInterval speed

/-- The session state after `load_game_state` succeeds on snapshot `d`
and lines 724-731 re-apply score, active powerup, timer and interval. -/
def stateFromSaveDoc (cfg : Config) (d : SaveDoc) : GameState :=
  { body := d.snake
    direction := d.direction
    foodPos := d.foodPos
    foodSkinIdx := d.foodSkinIdx
    obstacles := d.obstacles
    powerups := d.powerups
    score := d.score
    powerupActive := d.powerupActive
    powerupTimer := d.powerupTimer
    interval := loadedInterval cfg.speed d.powerupActive
    snakeSkinIdx := d.snakeSkinIdx }

/-- The state `game_loop` enters its event loop with (lines 696-742):
fresh objects are built (first food draw `foodDraw1`); then `load_game()`
is consulted unconditionally. A validated snapshot replaces the fresh
state; a snapshot `load_game_state` rejects causes a reset to fresh
objects with a second food draw `foodDraw2`; no/unparseable file keeps the
fresh objects. -/
def gameLoopInit (cfg : Config) (snakeSkin fruitSkin : Nat)
    (foodDraw1 foodDraw2 : Pos) (file : Option SaveContent) : GameState :=
  match (loadGame file).1 with
  | some (ParsedSave.good d) => stateFromSaveDoc cfg d
  | some ParsedSave.bad => freshState cfg snakeSkin fruitSkin foodDraw2
  | none => freshState cfg snakeSkin fruitSkin foodDraw1

/-! ### Keyboard dispatch inside the game loop (lines 751-763) -/

/-- The keys of the movement/save `elif` chain: arrow keys plus the
`w`/`a`/`s`/`d` bindings. -/
inductive GKey where
  | kUp
  | kW
  | kDown
  | kS
  | kLeft
  | kA
  | kRight
  | kD
deriving DecidableEq, Repr

/-- The four direction vectors. The y axis grows downward. -/
def dirUp : Pos := (0, -(CELL_SIZE : Int))

/-- Moving down: `(0, CELL_SIZE)`. -/
def dirDown : Pos := ((0 : Int), (CELL_SIZE : Nat))

/-- Moving left: `(-CELL_SIZE, 0)`. -/
def dirLeft : Pos := (-(CELL_SIZE : Int), 0)

/-- Moving right: `(CELL_SIZE, 0)`. -/
def dirRight : Pos := (((CELL_SIZE : Nat) : Int), 0)

/-- The direction a key requests under the code's bindings. -/
def requestedDir : GKey → Pos
  | GKey.kUp => dirUp
  | GKey.kW => dirUp
  | GKey.kDown => dirDown
  | GKey.kS => dirDown
  | GKey.kLeft => dirLeft
  | GKey.kA => dirLeft
  | GKey.kRight => dirRight
  | GKey.kD => dirRight

/-- The `elif` chain of lines 753-763 for one keydown while not paused:
returns the direction after the event and whether the save branch ran.
Each movement branch fires only when the current direction is not the
reverse of the requested one; `K_s` falls through to the save branch only
when every movement guard rejected it. -/
def dispatchKey (k : GKey) (dir : Pos) : Pos × Bool :=
  if (k = GKey.kUp ∨ k = GKey.kW) ∧ dir ≠ dirDown then (dirUp, false)
  else if (k = GKey.kDown ∨ k = GKey.kS) ∧ dir ≠ dirUp then (dirDown, false)
  else if (k = GKey.kLeft ∨ k = GKey.kA) ∧ dir ≠ dirRight then (dirLeft, false)
  else if (k = GKey.kRight ∨ k = GKey.kD) ∧ dir ≠ dirLeft then (dirRight, false)
  else if k = GKey.kS then (dir, true)
  else (dir, false)

/-- The four direction states the game can be in. -/
def validDirs : List Pos := [dirUp, dirDown, dirLeft, dirRight]

/-! ### Leaderboard persistence (lines 112-151) -/

/-- A leaderboard entry `{name, score}`; the name is a character list. -/
structure ScoreEntry where
  name : List Char
  score : Int
deriving DecidableEq, Repr

/-- Leaderboard file content: raises in `json.load`, or parses to a list
of entries. -/
inductive LBContent where
  | malformed
  | valid (entries : List ScoreEntry)
deriving DecidableEq, Repr

/-- `load_leaderboard` (lines 112-124): missing or unparseable file is an
empty list; otherwise the parsed entries. -/
def loadLeaderboard : Option LBContent → List ScoreEntry
  | none => []
  | some LBContent.malformed => []
  | some (LBContent.valid l) => l

/-- `save_leaderboard` (lines 126-132): writes `leaderboard[:5]`. -/
def saveLeaderboard (l : List ScoreEntry) : Option LBContent :=
  some (LBContent.valid (l.take 5))

/-- The character class kept by `re.sub(r"[^a-zA-Z0-9 ]", "", name)`. -/
def allowedChar (c : Char) : Bool :=
  (('a' ≤ c) && (c ≤ 'z')) || (('A' ≤ c) && (c ≤ 'Z')) || (('0' ≤ c) && (c ≤ '9')) || (c == ' ')

/-- Python `str.strip()` on a string whose only whitespace is spaces. -/
def trimSpaces (l : List Char) : List Char :=
  ((l.dropWhile (fun c => c == ' ')).reverse.dropWhile (fun c => c == ' ')).reverse

/-- The placeholder `"Anonymous"` used for an empty sanitized name. -/
def anonymousName : List Char := ['A', 'n', 'o', 'n', 'y', 'm', 'o', 'u', 's']

/-- The name sanitization of lines 136-138: keep `[A-Za-z0-9 ]`, strip,
fall back to `"Anonymous"` when empty. -/
def sanitizeName (name : List Char) : List Char :=
  let cleaned := trimSpaces (name.filter allowedChar)
  if cleaned = [] then anonymousName else cleaned

/-- One step of Python's stable sort, descending by score: the new entry
goes after every entry whose score is at least as large. -/
def insertEntryDesc (e : ScoreEntry) : List ScoreEntry → List ScoreEntry
  | [] => [e]
  | f :: rest => if f.score < e.score then e :: f :: rest else f :: insertEntryDesc e rest

/-- `leaderboard.sort(key=lambda x: x["score"], reverse=True)`: Python's
sort is stable, so equal scores keep their insertion order; modelled as a
left-to-right stable insertion sort. -/
def sortEntriesDesc (l : List ScoreEntry) : List ScoreEntry :=
  l.foldl (fun acc e => insertEntryDesc e acc) []

/-- `save_score(name, score)` (lines 134-142) acting on the leaderboard
file: sanitize the name, load, append, sort descending, save top 5. -/
def saveScore (name : List Char) (score : Int) (file : Option LBContent) : Option LBContent :=
  let cleaned := sanitizeName name
  let lb := loadLeaderboard file
  saveLeaderboard (sortEntriesDesc (lb ++ [⟨cleaned, score⟩]))

/-! ### Concrete instances used to exercise the definitions -/

/-- A small 5×5-cell board at the base speed `FPS = 15`. -/
def cfg0 : Config := ⟨100, 100, 15⟩

/-- The 800×600 fallback screen size of the source, at base speed. -/
def cfgWide : Config := ⟨800, 600, 15⟩

/-- A tick draw stream: no powerup roll, one food candidate at the origin. -/
def rNone : TickRand := ⟨false, [], PType.speedBoost, [((0 : Int), (0 : Int))], []⟩

/-- A fresh session on `cfg0` whose food sits directly right of the head. -/
def s0 : GameState := freshState cfg0 0 0 ((60 : Int), (40 : Int))

/-- The state one eat tick after `s0`. -/
def s0next : GameState :=
  ⟨[((60 : Int), (40 : Int)), ((40 : Int), (40 : Int))], ((20 : Int), (0 : Int)),
    ((0 : Int), (0 : Int)), 0, [], [], 1, none, 0, 66, 0⟩

/-- A snake at the right edge of `cfg0` about to hit the wall, score 3. -/
def sWall : GameState :=
  ⟨[((80 : Int), (40 : Int))], ((20 : Int), (0 : Int)), ((0 : Int), (0 : Int)),
    0, [], [], 3, none, 0, 66, 0⟩

/-- A field speed-boost powerup directly right of the head of `s3`. -/
def pw0 : Powerup := ⟨((60 : Int), (40 : Int)), PType.speedBoost⟩

/-- A state about to collect `pw0` on a non-eat tick. -/
def s3 : GameState :=
  ⟨[((40 : Int), (40 : Int))], ((20 : Int), (0 : Int)), ((0 : Int), (0 : Int)),
    0, [], [pw0], 0, none, 0, 66, 0⟩

/-- The state one tick after `s3`: boosted interval, timer 74. -/
def s3next : GameState :=
  ⟨[((60 : Int), (40 : Int))], ((20 : Int), (0 : Int)), ((0 : Int), (0 : Int)),
    0, [], [], 0, some PType.speedBoost, 74, 50, 0⟩

/-- A state with an active slow-down effect whose timer is about to expire. -/
def s4 : GameState :=
  ⟨[((40 : Int), (40 : Int))], ((20 : Int), (0 : Int)), ((0 : Int), (0 : Int)),
    0, [], [], 0, some PType.slowDown, 1, 100, 0⟩

/-- The state one tick after `s4`: effect cleared, base interval restored. -/
def s4next : GameState :=
  ⟨[((60 : Int), (40 : Int))], ((20 : Int), (0 : Int)), ((0 : Int), (0 : Int)),
    0, [], [], 0, none, 0, 66, 0⟩

/-- A full save snapshot with obstacles, a field powerup and an active boost. -/
def doc0 : SaveDoc :=
  ⟨[((60 : Int), (40 : Int)), ((40 : Int), (40 : Int))], ((0 : Int), (20 : Int)),
    ((0 : Int), (0 : Int)), 1, [((20 : Int), (20 : Int))],
    [⟨((80 : Int), (0 : Int)), PType.slowDown⟩], 7, some PType.speedBoost, 30, 2⟩

/-- A name with a character the sanitizer must drop. -/
def testName : List Char := ['A', 'l', '*', 'i', 'c', 'e', ' ', '9', '9']

/-! ### Helper lemmas about the tick phases -/

lemma tickTimer_powerups (cfg : Config) (e : EffectState) :
    (tickTimer cfg e).powerups = e.powerups := by
  unfold tickTimer
  split
  · dsimp only
    split <;> rfl
  · rfl

lemma mem_collectPowerup_powerups {cfg : Config} {nh : Pos} {e : EffectState} {p : Powerup}
    (hp : p ∈ (collectPowerup cfg nh e).powerups) : p ∈ e.powerups := by
  unfold collectPowerup at hp
  split at hp
  · exact (List.eraseP_sublist _).subset hp
  · exact hp

lemma collectPowerup_of_find_none {cfg : Config} {nh : Pos} {e : EffectState}
    (hfind : e.powerups.find? (fun p => p.pos == nh) = none) :
    collectPowerup cfg nh e = e := by
  unfold collectPowerup
  rw [hfind]

lemma mem_spawnPowerupPhase {r : TickRand} {body1 : List Pos} {fp : Pos}
    {obs : List Pos} {pups : List Powerup} {p : Powerup}
    (hp : p ∈ spawnPowerupPhase r body1 fp obs pups) :
    p ∈ pups ∨ p.pos ∉ body1 ++ [fp] ++ obs ++ pups.map Powerup.pos := by
  unfold spawnPowerupPhase at hp
  split at hp
  · split at hp
    · rename_i c hfind
      rcases List.mem_append.mp hp with h1 | h2
      · exact Or.inl h1
      · have hc := List.find?_some hfind
        have hmem : p = ⟨c, r.powerupChoice⟩ := by simpa using h2
        subst hmem
        exact Or.inr (of_decide_eq_true hc)
    · exact Or.inl hp
  · exact Or.inl hp

lemma mem_spawnObstaclePhase {cfg : Config} {r : TickRand} {body1 : List Pos} {fp : Pos}
    {pups : List Powerup} {obs : List Pos} {sc : Int} {x : Pos}
    (hx : x ∈ spawnObstaclePhase cfg r body1 fp pups obs sc) :
    x ∈ obs ∨ x ∉ body1 ++ [fp] ++ pups.map Powerup.pos ++ obs := by
  unfold spawnObstaclePhase at hx
  split at hx
  · split at hx
    · rename_i c hfind
      rcases List.mem_append.mp hx with h1 | h2
      · exact Or.inl h1
      · have hc := List.find?_some hfind
        have hmem : x = c := by simpa using h2
        subst hmem
        exact Or.inr (of_decide_eq_true hc)
    · exact Or.inl hx
  · exact Or.inl hx

lemma respawnFood_not_occupied {r : TickRand} {body1 op pp : List Pos} {nf : Pos}
    (hrf : respawnFood r body1 op pp = some nf) :
    nf ∉ body1 ∧ nf ∉ op ∧ nf ∉ pp := by
  have hc := List.find?_some hrf
  have hn := of_decide_eq_true hc
  simp only [List.mem_append, not_or] at hn
  exact ⟨hn.1.1, hn.1.2, hn.2⟩

lemma moveTick_next_nonfatal {cfg : Config} {r : TickRand} {s : GameState}
    {h : Pos} {t : List Pos} {s' : GameState} (hbody : s.body = h :: t)
    (hres : moveTick cfg r s = some (TickOutcome.next s')) :
    inBounds cfg (h.1 + s.direction.1, h.2 + s.direction.2)
    ∧ (h.1 + s.direction.1, h.2 + s.direction.2) ∉ h :: t
    ∧ (h.1 + s.direction.1, h.2 + s.direction.2) ∉ s.obstacles := by
  by_cases hin : inBounds cfg (h.1 + s.direction.1, h.2 + s.direction.2)
  · by_cases hself : (h.1 + s.direction.1, h.2 + s.direction.2) ∈ h :: t
    · exfalso
      simp [moveTick, hbody, hin, hself] at hres
    · by_cases hobs : (h.1 + s.direction.1, h.2 + s.direction.2) ∈ s.obstacles
      · exfalso
        simp [moveTick, hbody, hin, hself, hobs] at hres
      · exact ⟨hin, hself, hobs⟩
  · exfalso
    simp [moveTick, hbody, hin] at hres

lemma moveTick_not_eat_eq (cfg : Config) (r : TickRand) (s : GameState)
    (h : Pos) (t : List Pos) (hbody : s.body = h :: t)
    (hin : inBounds cfg (h.1 + s.direction.1, h.2 + s.direction.2))
    (hself : (h.1 + s.direction.1, h.2 + s.direction.2) ∉ h :: t)
    (hobs : (h.1 + s.direction.1, h.2 + s.direction.2) ∉ s.obstacles)
    (hfood : (h.1 + s.direction.1, h.2 + s.direction.2) ≠ s.foodPos) :
    moveTick cfg r s = some (TickOutcome.next
      (let e2 := tickTimer cfg (collectPowerup cfg (h.1 + s.direction.1, h.2 + s.direction.2)
        ⟨s.powerups, s.powerupActive, s.powerupTimer, s.interval⟩)
       { s with
          body := ((h.1 + s.direction.1, h.2 + s.direction.2) :: h :: t).dropLast
          powerups := e2.powerups
          powerupActive := e2.active
          powerupTimer := e2.timer
          interval := e2.interval })) := by
  simp only [moveTick, hbody]
  rw [if_neg (not_not_intro hin), if_neg hself, if_neg hobs, if_neg hfood]

lemma moveTick_eat_eq (cfg : Config) (r : TickRand) (s : GameState)
    (h : Pos) (t : List Pos) (nf : Pos) (hbody : s.body = h :: t)
    (hin : inBounds cfg (h.1 + s.direction.1, h.2 + s.direction.2))
    (hself : (h.1 + s.direction.1, h.2 + s.direction.2) ∉ h :: t)
    (hobs : (h.1 + s.direction.1, h.2 + s.direction.2) ∉ s.obstacles)
    (hfood : (h.1 + s.direction.1, h.2 + s.direction.2) = s.foodPos)
    (hrf : respawnFood r ((h.1 + s.direction.1, h.2 + s.direction.2) :: h :: t) s.obstacles
      ((spawnPowerupPhase r ((h.1 + s.direction.1, h.2 + s.direction.2) :: h :: t)
        s.foodPos s.obstacles s.powerups).map Powerup.pos) = some nf) :
    moveTick cfg r s = some (TickOutcome.next
      (let pups1 := spawnPowerupPhase r ((h.1 + s.direction.1, h.2 + s.direction.2) :: h :: t)
        s.foodPos s.obstacles s.powerups
       let obs1 := spawnObstaclePhase cfg r ((h.1 + s.direction.1, h.2 + s.direction.2) :: h :: t)
        nf pups1 s.obstacles (s.score + 1)
       let e2 := tickTimer cfg (collectPowerup cfg (h.1 + s.direction.1, h.2 + s.direction.2)
        ⟨pups1, s.powerupActive, s.powerupTimer, s.interval⟩)
       { s with
          body := (h.1 + s.direction.1, h.2 + s.direction.2) :: h :: t
          foodPos := nf
          obstacles := obs1
          powerups := e2.powerups
          score := s.score + 1
          powerupActive := e2.active
          powerupTimer := e2.timer
          interval := e2.interval })) := by
  simp only [moveTick, hbody]
  rw [if_neg (not_not_intro hin), if_neg hself, if_neg hobs, if_pos hfood, hrf]

lemma moveTick_eat_inversion {cfg : Config} {r : TickRand} {s : GameState}
    {h : Pos} {t : List Pos} {s' : GameState} (hbody : s.body = h :: t)
    (heat : (h.1 + s.direction.1, h.2 + s.direction.2) = s.foodPos)
    (hres : moveTick cfg r s = some (TickOutcome.next s')) :
    ∃ nf : Pos,
      respawnFood r ((h.1 + s.direction.1, h.2 + s.direction.2) :: h :: t) s.obstacles
        ((spawnPowerupPhase r ((h.1 + s.direction.1, h.2 + s.direction.2) :: h :: t)
          s.foodPos s.obstacles s.powerups).map Powerup.pos) = some nf ∧
      s' = (let pups1 := spawnPowerupPhase r ((h.1 + s.direction.1, h.2 + s.direction.2) :: h :: t)
              s.foodPos s.obstacles s.powerups
            let obs1 := spawnObstaclePhase cfg r
              ((h.1 + s.direction.1, h.2 + s.direction.2) :: h :: t)
              nf pups1 s.obstacles (s.score + 1)
            let e2 := tickTimer cfg (collectPowerup cfg (h.1 + s.direction.1, h.2 + s.direction.2)
              ⟨pups1, s.powerupActive, s.powerupTimer, s.interval⟩)
            { s with
                body := (h.1 + s.direction.1, h.2 + s.direction.2) :: h :: t
                foodPos := nf
                obstacles := obs1
                powerups := e2.powerups
                score := s.score + 1
                powerupActive := e2.active
                powerupTimer := e2.timer
                interval := e2.interval }) := by
  obtain ⟨hin, hself, hobs⟩ := moveTick_next_nonfatal hbody hres
  rcases hrf : respawnFood r ((h.1 + s.direction.1, h.2 + s.direction.2) :: h :: t) s.obstacles
      ((spawnPowerupPhase r ((h.1 + s.direction.1, h.2 + s.direction.2) :: h :: t)
        s.foodPos s.obstacles s.powerups).map Powerup.pos) with _ | nf
  · exfalso
    simp only [moveTick, hbody] at hres
    rw [if_neg (not_not_intro hin), if_neg hself, if_neg hobs, if_pos heat, hrf] at hres
    exact Option.noConfusion hres
  · refine ⟨nf, rfl, ?_⟩
    have heq := moveTick_eat_eq cfg r s h t nf hbody hin hself hobs heat hrf
    have h2 := heq.symm.trans hres
    exact (TickOutcome.next.inj (Option.some.inj h2)).symm

lemma moveTick_not_eat_inversion {cfg : Config} {r : TickRand} {s : GameState}
    {h : Pos} {t : List Pos} {s' : GameState} (hbody : s.body = h :: t)
    (hneq : (h.1 + s.direction.1, h.2 + s.direction.2) ≠ s.foodPos)
    (hres : moveTick cfg r s = some (TickOutcome.next s')) :
    s' = (let e2 := tickTimer cfg (collectPowerup cfg (h.1 + s.direction.1, h.2 + s.direction.2)
            ⟨s.powerups, s.powerupActive, s.powerupTimer, s.interval⟩)
          { s with
              body := ((h.1 + s.direction.1, h.2 + s.direction.2) :: h :: t).dropLast
              powerups := e2.powerups
              powerupActive := e2.active
              powerupTimer := e2.timer
              interval := e2.interval }) := by
  obtain ⟨hin, hself, hobs⟩ := moveTick_next_nonfatal hbody hres
  have heq := moveTick_not_eat_eq cfg r s h t hbody hin hself hobs hneq
  have h2 := heq.symm.trans hres
  exact (TickOutcome.next.inj (Option.some.inj h2)).symm

lemma eat_tick_food_placement {cfg : Config} {r : TickRand} {s : GameState}
    {h : Pos} {t : List Pos} {s' : GameState} (hbody : s.body = h :: t)
    (heat : (h.1 + s.direction.1, h.2 + s.direction.2) = s.foodPos)
    (hres : moveTick cfg r s = some (TickOutcome.next s')) :
    s'.foodPos ∉ s'.body ∧ s'.foodPos ∉ s'.obstacles
    ∧ ∀ p ∈ s'.powerups, p.pos ≠ s'.foodPos := by
  obtain ⟨nf, hrf, hs'⟩ := moveTick_eat_inversion hbody heat hres
  obtain ⟨hnb, hno, hnp⟩ := respawnFood_not_occupied hrf
  subst hs'
  refine ⟨hnb, ?_, ?_⟩
  · intro hmem
    dsimp only at hmem
    rcases mem_spawnObstaclePhase hmem with h1 | h2
    · exact hno h1
    · exact h2 (by simp)
  · intro p hp
    dsimp only at hp ⊢
    rw [tickTimer_powerups] at hp
    have hp1 := mem_collectPowerup_powerups hp
    intro hpos
    exact hnp (hpos ▸ List.mem_map_of_mem Powerup.pos hp1)

lemma find_none_of_nopick {nh : Pos} {pups : List Powerup}
    (hnp : ∀ p ∈ pups, p.pos ≠ nh) :
    pups.find? (fun p => p.pos == nh) = none := by
  rw [List.find?_eq_none]
  intro p hp
  simp [hnp p hp]

lemma tickTimer_active_fields (cfg : Config) (pups : List Powerup) (pt : PType)
    (timer : Int) (itv : Nat) :
    (tickTimer cfg ⟨pups, some pt, timer, itv⟩).timer = timer - 1
    ∧ (timer - 1 ≤ 0 →
        (tickTimer cfg ⟨pups, some pt, timer, itv⟩).active = none
        ∧ (tickTimer cfg ⟨pups, some pt, timer, itv⟩).interval = baseInterval cfg.speed)
    ∧ (0 < timer - 1 →
        (tickTimer cfg ⟨pups, some pt, timer, itv⟩).active = some pt
        ∧ (tickTimer cfg ⟨pups, some pt, timer, itv⟩).interval = itv) := by
  unfold tickTimer
  dsimp only
  by_cases ht : timer - 1 ≤ 0
  · rw [if_pos ht]
    exact ⟨rfl, fun _ => ⟨rfl, rfl⟩, fun hlt => absurd ht (not_le.mpr hlt)⟩
  · rw [if_neg ht]
    exact ⟨rfl, fun hle => absurd hle ht, fun _ => ⟨rfl, rfl⟩⟩

/-! ### Helper lemmas about the leaderboard sort -/

lemma mem_insertEntryDesc {x e : ScoreEntry} {l : List ScoreEntry} :
    x ∈ insertEntryDesc e l ↔ x = e ∨ x ∈ l := by
  induction l with
  | nil => simp [insertEntryDesc]
  | cons f rest ih =>
    unfold insertEntryDesc
    split
    · simp [List.mem_cons]
    · simp only [List.mem_cons, ih]
      tauto

lemma pairwise_insertEntryDesc {e : ScoreEntry} {l : List ScoreEntry}
    (hl : l.Pairwise (fun a b => b.score ≤ a.score)) :
    (insertEntryDesc e l).Pairwise (fun a b => b.score ≤ a.score) := by
  induction l with
  | nil => simp [insertEntryDesc]
  | cons f rest ih =>
    rw [List.pairwise_cons] at hl
    unfold insertEntryDesc
    split
    · rename_i hlt
      rw [List.pairwise_cons]
      refine ⟨?_, List.pairwise_cons.mpr hl⟩
      intro b hb
      rcases List.mem_cons.mp hb with rfl | hb2
      · exact le_of_lt hlt
      · exact le_trans (hl.1 b hb2) (le_of_lt hlt)
    · rename_i hge
      rw [List.pairwise_cons]
      refine ⟨?_, ih hl.2⟩
      intro b hb
      rcases mem_insertEntryDesc.mp hb with rfl | hb2
      · exact not_lt.mp hge
      · exact hl.1 b hb2

lemma pairwise_sortFold (l : List ScoreEntry) :
    ∀ acc : List ScoreEntry, acc.Pairwise (fun a b => b.score ≤ a.score) →
    (l.foldl (fun a e => insertEntryDesc e a) acc).Pairwise (fun a b => b.score ≤ a.score) := by
  induction l with
  | nil => exact fun _ h => h
  | cons e l ih => exact fun acc h => ih _ (pairwise_insertEntryDesc h)

lemma pairwise_sortEntriesDesc (l : List ScoreEntry) :
    (sortEntriesDesc l).Pairwise (fun a b => b.score ≤ a.score) :=
  pairwise_sortFold l [] List.Pairwise.nil

lemma filter_insertEntryDesc {e : ScoreEntry} {l : List ScoreEntry} (k : Int)
    (hl : l.Pairwise (fun a b => b.score ≤ a.score)) :
    (insertEntryDesc e l).filter (fun x => x.score == k)
      = if e.score == k then l.filter (fun x => x.score == k) ++ [e]
        else l.filter (fun x => x.score == k) := by
  induction l with
  | nil =>
    by_cases he : (e.score == k) = true
    · simp [insertEntryDesc, he]
    · simp [insertEntryDesc, he]
  | cons f rest ih =>
    rw [List.pairwise_cons] at hl
    unfold insertEntryDesc
    split
    · rename_i hlt
      by_cases he : (e.score == k) = true
      · have hnil : (f :: rest).filter (fun x => x.score == k) = [] := by
          rw [List.filter_eq_nil_iff]
          intro a ha
          have hak : a.score ≤ f.score := by
            rcases List.mem_cons.mp ha with rfl | ha2
            · exact le_refl _
            · exact hl.1 a ha2
          have halt : a.score < e.score := lt_of_le_of_lt hak hlt
          simp only [beq_iff_eq]
          intro hak2
          have hek : e.score = k := eq_of_beq he
          exact absurd (hak2.trans hek.symm) (ne_of_lt halt)
        rw [List.filter_cons, if_pos he, hnil, if_pos he]
        simp [hnil]
      · rw [List.filter_cons, if_neg he, if_neg he]
    · rename_i hge
      rw [List.filter_cons]
      by_cases hf : (f.score == k) = true
      · rw [if_pos hf, ih hl.2]
        by_cases he : (e.score == k) = true
        · rw [if_pos he, if_pos he, List.filter_cons, if_pos hf]
          simp
        · rw [if_neg he, if_neg he, List.filter_cons, if_pos hf]
      · rw [if_neg hf, ih hl.2]
        by_cases he : (e.score == k) = true
        · rw [if_pos he, if_pos he, List.filter_cons, if_neg hf]
        · rw [if_neg he, if_neg he, List.filter_cons, if_neg hf]

lemma filter_sortFold (k : Int) (l : List ScoreEntry) :
    ∀ acc : List ScoreEntry, acc.Pairwise (fun a b => b.score ≤ a.score) →
    (l.foldl (fun a e => insertEntryDesc e a) acc).filter (fun x => x.score == k)
      = acc.filter (fun x => x.score == k) ++ l.filter (fun x => x.score == k) := by
  induction l with
  | nil => intro acc _; simp
  | cons e l ih =>
    intro acc h
    rw [List.foldl_cons, ih _ (pairwise_insertEntryDesc h), filter_insertEntryDesc k h,
      List.filter_cons]
    by_cases he : (e.score == k) = true
    · rw [if_pos he, if_pos he]
      simp
    · rw [if_neg he, if_neg he]

lemma filter_sortEntriesDesc (k : Int) (l : List ScoreEntry) :
    (sortEntriesDesc l).filter (fun x => x.score == k)
      = l.filter (fun x => x.score == k) := by
  have h := filter_sortFold k l [] List.Pairwise.nil
  simpa [sortEntriesDesc] using h

lemma mem_trimSpaces {c : Char} {l : List Char} (h : c ∈ trimSpaces l) : c ∈ l := by
  unfold trimSpaces at h
  rw [List.mem_reverse] at h
  have h3 := (List.dropWhile_sublist _).subset h
  rw [List.mem_reverse] at h3
  exact (List.dropWhile_sublist _).subset h3

/-! ### The claims -/

/-- C1: on a move tick the advanced head is tested against the wall, the
remaining body, and the obstacles, in that order; the first fatal
condition ends the session at the pre-tick score, before any of the
food/growth/score/powerup logic runs, and a tick can only end the session
when one of the three conditions holds. -/
theorem fatal_collision_checked_in_order (cfg : Config) (r : TickRand) (s : GameState)
    (h : Pos) (t : List Pos) (hbody : s.body = h :: t) :
    (¬ inBounds cfg (h.1 + s.direction.1, h.2 + s.direction.2) →
      fatalCause cfg s = some Cause.wall
      ∧ moveTick cfg r s = some (TickOutcome.gameOver s.score))
    ∧ (inBounds cfg (h.1 + s.direction.1, h.2 + s.direction.2) →
       (h.1 + s.direction.1, h.2 + s.direction.2) ∈ h :: t →
      fatalCause cfg s = some Cause.selfHit
      ∧ moveTick cfg r s = some (TickOutcome.gameOver s.score))
    ∧ (inBounds cfg (h.1 + s.direction.1, h.2 + s.direction.2) →
       (h.1 + s.direction.1, h.2 + s.direction.2) ∉ h :: t →
       (h.1 + s.direction.1, h.2 + s.direction.2) ∈ s.obstacles →
      fatalCause cfg s = some Cause.obstacle
      ∧ moveTick cfg r s = some (TickOutcome.gameOver s.score))
    ∧ (∀ x : Int, moveTick cfg r s = some (TickOutcome.gameOver x) →
      x = s.score
      ∧ (¬ inBounds cfg (h.1 + s.direction.1, h.2 + s.direction.2)
        ∨ (h.1 + s.direction.1, h.2 + s.direction.2) ∈ h :: t
        ∨ (h.1 + s.direction.1, h.2 + s.direction.2) ∈ s.obstacles)) := by
  refine ⟨?_, ?_, ?_, ?_⟩
  · intro hw
    constructor
    · simp [fatalCause, hbody, hw]
    · simp [moveTick, hbody, hw]
  · intro hin hself
    constructor
    · simp [fatalCause, hbody, hin, hself]
    · simp [moveTick, hbody, hin, hself]
  · intro hin hself hobs
    constructor
    · simp [fatalCause, hbody, hin, hself, hobs]
    · simp [moveTick, hbody, hin, hself, hobs]
  · intro x hx
    by_cases hin : inBounds cfg (h.1 + s.direction.1, h.2 + s.direction.2)
    · by_cases hself : (h.1 + s.direction.1, h.2 + s.direction.2) ∈ h :: t
      · simp [moveTick, hbody, hin, hself] at hx
        exact ⟨hx.symm ▸ rfl, Or.inr (Or.inl hself)⟩
      · by_cases hobs : (h.1 + s.direction.1, h.2 + s.direction.2) ∈ s.obstacles
        · simp [moveTick, hbody, hin, hself, hobs] at hx
          exact ⟨hx.symm ▸ rfl, Or.inr (Or.inr hobs)⟩
        · exfalso
          simp only [moveTick, hbody] at hx
          rw [if_neg (not_not_intro hin), if_neg hself, if_neg hobs] at hx
          split at hx <;> try split at hx
          all_goals simp_all
    · simp [moveTick, hbody, hin] at hx
      exact ⟨hx.symm ▸ rfl, Or.inl hin⟩

/-- C1 witness: a snake at the right edge of a 100×100 board moving right
dies on the wall with its score 3 intact. -/
theorem fatal_collision_checked_in_order_witness :
    (¬ inBounds cfg0 (80 + 20, 40 + 0))
    ∧ fatalCause cfg0 sWall = some Cause.wall
    ∧ moveTick cfg0 rNone sWall = some (TickOutcome.gameOver sWall.score) :=
  ⟨by decide,
    (fatal_collision_checked_in_order cfg0 rNone sWall ((80 : Int), (40 : Int)) [] rfl).1
      (by decide)⟩

/-- C2: on a non-fatal tick that produces a next state, eating grows the
body by exactly one segment, raises the score by exactly one, and leaves
the food on a cell free of snake, obstacles and powerups; a non-eating
tick prepends the head and drops the tail, keeping length and score. -/
theorem nonfatal_tick_growth_and_length (cfg : Config) (r : TickRand) (s : GameState)
    (h : Pos) (t : List Pos) (s' : GameState) (hbody : s.body = h :: t)
    (hres : moveTick cfg r s = some (TickOutcome.next s')) :
    ((h.1 + s.direction.1, h.2 + s.direction.2) = s.foodPos →
      s'.body.length = s.body.length + 1 ∧ s'.score = s.score + 1
      ∧ s'.foodPos ∉ s'.body ∧ s'.foodPos ∉ s'.obstacles
      ∧ ∀ p ∈ s'.powerups, p.pos ≠ s'.foodPos)
    ∧ ((h.1 + s.direction.1, h.2 + s.direction.2) ≠ s.foodPos →
      s'.body = ((h.1 + s.direction.1, h.2 + s.direction.2) :: s.body).dropLast
      ∧ s'.body.length = s.body.length ∧ s'.score = s.score) := by
  constructor
  · intro heat
    obtain ⟨hfree1, hfree2, hfree3⟩ := eat_tick_food_placement hbody heat hres
    obtain ⟨nf, hrf, hs'⟩ := moveTick_eat_inversion hbody heat hres
    refine ⟨?_, ?_, hfree1, hfree2, hfree3⟩
    · subst hs'
      simp [hbody]
    · subst hs'
      rfl
  · intro hneq
    have hs' := moveTick_not_eat_inversion hbody hneq hres
    subst hs'
    refine ⟨?_, ?_, rfl⟩
    · rw [hbody]
    · simp [hbody, List.length_dropLast]

/-- C2 witness: a fresh snake on `cfg0` eating the food right of it grows
to length 2, scores 1, and the food respawns on a free cell. -/
theorem nonfatal_tick_growth_and_length_witness :
    moveTick cfg0 rNone s0 = some (TickOutcome.next s0next)
    ∧ (s0next.body.length = s0.body.length + 1 ∧ s0next.score = s0.score + 1
      ∧ s0next.foodPos ∉ s0next.body ∧ s0next.foodPos ∉ s0next.obstacles
      ∧ ∀ p ∈ s0next.powerups, p.pos ≠ s0next.foodPos) :=
  ⟨by decide,
    (nonfatal_tick_growth_and_length cfg0 rNone s0 ((40 : Int), (40 : Int)) [] s0next rfl
      (by decide)).1 (by decide)⟩

/-- C3 counterexample: at session start the food is placed by a plain
`random_position` draw with no exclusion check, so a legal draw puts it
exactly on the snake's single starting segment (here on the 800×600
fallback screen: draw (20, 15) is the grid center). -/
theorem initial_food_placement_unchecked_cex :
    randomDrawValid cfgWide 20 15
    ∧ randomPosition 20 15 = startPos cfgWide
    ∧ (freshState cfgWide 0 0 (randomPosition 20 15)).foodPos
        ∈ (freshState cfgWide 0 0 (randomPosition 20 15)).body := by
  decide

/-- C3 amended: whenever the food is re-placed because the snake ate it,
the new position avoids every snake segment, obstacle and powerup; the
initial placement at session start carries no such guarantee. -/
theorem eaten_food_respawn_free (cfg : Config) (r : TickRand) (s : GameState)
    (h : Pos) (t : List Pos) (s' : GameState) (hbody : s.body = h :: t)
    (heat : (h.1 + s.direction.1, h.2 + s.direction.2) = s.foodPos)
    (hres : moveTick cfg r s = some (TickOutcome.next s')) :
    s'.foodPos ∉ s'.body ∧ s'.foodPos ∉ s'.obstacles
    ∧ ∀ p ∈ s'.powerups, p.pos ≠ s'.foodPos :=
  eat_tick_food_placement hbody heat hres

/-- C3 witness: the respawned food of the concrete eat tick on `s0` sits
on a free cell. -/
theorem eaten_food_respawn_free_witness :
    s0next.foodPos ∉ s0next.body ∧ s0next.foodPos ∉ s0next.obstacles
    ∧ ∀ p ∈ s0next.powerups, p.pos ≠ s0next.foodPos :=
  eaten_food_respawn_free cfg0 rNone s0 ((40 : Int), (40 : Int)) [] s0next rfl
    (by decide) (by decide)

/-- C4 counterexample: `load_game` returns `None` both when the save file
is absent and when its content fails to parse — the two outcomes are the
very same value, not distinguishable signals (only printed messages
differ). -/
theorem load_game_corrupted_signal_cex :
    (loadGame (some SaveContent.malformed)).1 = none
    ∧ (loadGame none).1 = none
    ∧ loadGame (some SaveContent.malformed) = loadGame none
    ∧ (loadGame (some SaveContent.malformed)).2 = none :=
  ⟨rfl, rfl, rfl, rfl⟩

/-- C4 amended: `load_game` returns `None` for an absent file and the same
`None` for an unparseable one; in the unparseable case `load_game` itself
deletes the file, so every later load behaves exactly as if the save were
absent; a parseable file is returned and left in place. -/
theorem load_game_absent_and_deletion (d : SaveDoc) :
    loadGame none = (none, none)
    ∧ loadGame (some SaveContent.malformed) = (none, none)
    ∧ loadGame ((loadGame (some SaveContent.malformed)).2) = loadGame none
    ∧ loadGame (some (SaveContent.parsedGood d))
        = (some (ParsedSave.good d), some (SaveContent.parsedGood d)) :=
  ⟨rfl, rfl, rfl, rfl⟩

/-- C4 witness: the amended statement instantiated at the concrete
snapshot `doc0`. -/
theorem load_game_absent_and_deletion_witness :
    loadGame (some (SaveContent.parsedGood doc0))
      = (some (ParsedSave.good doc0), some (SaveContent.parsedGood doc0)) :=
  (load_game_absent_and_deletion doc0).2.2.2

/-- C5: on a tick that produces a next state, while an effect is active
and the head does not land on a field powerup, the timer drops by exactly
one; if that reaches zero (or below) the effect is cleared and the
interval returns to exactly the base interval, otherwise effect and
interval persist. -/
theorem active_powerup_timer_decrement (cfg : Config) (r : TickRand) (s : GameState)
    (h : Pos) (t : List Pos) (s' : GameState) (pt : PType) (hbody : s.body = h :: t)
    (hactive : s.powerupActive = some pt)
    (hnopick : ∀ p ∈ s.powerups, p.pos ≠ (h.1 + s.direction.1, h.2 + s.direction.2))
    (hres : moveTick cfg r s = some (TickOutcome.next s')) :
    s'.powerupTimer = s.powerupTimer - 1
    ∧ (s.powerupTimer - 1 ≤ 0 →
        s'.powerupActive = none ∧ s'.interval = baseInterval cfg.speed)
    ∧ (0 < s.powerupTimer - 1 →
        s'.powerupActive = some pt ∧ s'.interval = s.interval) := by
  by_cases heat : (h.1 + s.direction.1, h.2 + s.direction.2) = s.foodPos
  · obtain ⟨nf, hrf, hs'⟩ := moveTick_eat_inversion hbody heat hres
    subst hs'
    have hnp1 : ∀ p ∈ spawnPowerupPhase r ((h.1 + s.direction.1, h.2 + s.direction.2) :: h :: t)
        s.foodPos s.obstacles s.powerups,
        p.pos ≠ (h.1 + s.direction.1, h.2 + s.direction.2) := by
      intro p hp
      rcases mem_spawnPowerupPhase hp with h1 | h2
      · exact hnopick p h1
      · intro hpos
        exact h2 (by simp [hpos])
    have hcp := @collectPowerup_of_find_none cfg
      (h.1 + s.direction.1, h.2 + s.direction.2)
      ⟨spawnPowerupPhase r ((h.1 + s.direction.1, h.2 + s.direction.2) :: h :: t)
        s.foodPos s.obstacles s.powerups, s.powerupActive, s.powerupTimer, s.interval⟩
      (find_none_of_nopick hnp1)
    dsimp only
    rw [hcp, hactive]
    exact tickTimer_active_fields cfg _ pt s.powerupTimer s.interval
  · have hs' := moveTick_not_eat_inversion hbody heat hres
    subst hs'
    have hcp := @collectPowerup_of_find_none cfg
      (h.1 + s.direction.1, h.2 + s.direction.2)
      ⟨s.powerups, s.powerupActive, s.powerupTimer, s.interval⟩
      (find_none_of_nopick hnopick)
    dsimp only
    rw [hcp, hactive]
    exact tickTimer_active_fields cfg _ pt s.powerupTimer s.interval

/-- C5 witness: the active slow-down with one tick left expires on the
next tick and the interval returns to the base 66 ms. -/
theorem active_powerup_timer_decrement_witness :
    s4.powerupActive = some PType.slowDown
    ∧ moveTick cfg0 rNone s4 = some (TickOutcome.next s4next)
    ∧ (s4next.powerupTimer = s4.powerupTimer - 1
      ∧ (s4.powerupTimer - 1 ≤ 0 →
          s4next.powerupActive = none ∧ s4next.interval = baseInterval cfg0.speed)
      ∧ (0 < s4.powerupTimer - 1 →
          s4next.powerupActive = some PType.slowDown ∧ s4next.interval = s4.interval)) :=
  ⟨rfl, by decide,
    active_powerup_timer_decrement cfg0 rNone s4 ((40 : Int), (40 : Int)) [] s4next
      PType.slowDown rfl rfl (by decide) (by decide)⟩

/-- C6: the base interval is `1000 / speed`; collecting a speed boost sets
the interval to `max 50 (1000 / (speed + 10))` and collecting a slow-down
sets it to `1000 / max 1 (speed - 5)`, all in integer arithmetic. -/
theorem tick_interval_formulas (cfg : Config) (r : TickRand) (s : GameState)
    (h : Pos) (t : List Pos) (s' : GameState) (p : Powerup)
    (sk fk : Nat) (fp : Pos) (hbody : s.body = h :: t)
    (hneq : (h.1 + s.direction.1, h.2 + s.direction.2) ≠ s.foodPos)
    (hfind : s.powerups.find?
      (fun q => q.pos == (h.1 + s.direction.1, h.2 + s.direction.2)) = some p)
    (hres : moveTick cfg r s = some (TickOutcome.next s')) :
    s'.interval = (match p.type with
      | PType.speedBoost => boostInterval cfg.speed
      | PType.slowDown => slowInterval cfg.speed)
    ∧ boostInterval cfg.speed = max 50 (1000 / (cfg.speed + 10))
    ∧ slowInterval cfg.speed = 1000 / (max 1 (cfg.speed - 5))
    ∧ (freshState cfg sk fk fp).interval = 1000 / cfg.speed
    ∧ s'.powerupActive = some p.type
    ∧ s'.powerupTimer = powerupDuration p.type - 1 := by
  have hs' := moveTick_not_eat_inversion hbody hneq hres
  subst hs'
  dsimp only
  unfold collectPowerup
  dsimp only
  rw [hfind]
  dsimp only
  unfold tickTimer
  dsimp only
  have hd : ¬ (powerupDuration p.type - 1 ≤ 0) := by
    simp [powerupDuration, FPS]
  rw [if_neg hd]
  exact ⟨rfl, rfl, rfl, rfl, rfl, rfl⟩

/-- C6 witness: collecting the concrete speed boost at speed 15 yields
interval `max 50 (1000 / 25) = 50`. -/
theorem tick_interval_formulas_witness :
    moveTick cfg0 rNone s3 = some (TickOutcome.next s3next)
    ∧ (s3next.interval = (match pw0.type with
        | PType.speedBoost => boostInterval cfg0.speed
        | PType.slowDown => slowInterval cfg0.speed)
      ∧ boostInterval cfg0.speed = max 50 (1000 / (cfg0.speed + 10))
      ∧ slowInterval cfg0.speed = 1000 / (max 1 (cfg0.speed - 5))
      ∧ (freshState cfg0 0 0 ((0 : Int), (0 : Int))).interval = 1000 / cfg0.speed
      ∧ s3next.powerupActive = some pw0.type
      ∧ s3next.powerupTimer = powerupDuration pw0.type - 1) :=
  ⟨by decide,
    tick_interval_formulas cfg0 rNone s3 ((40 : Int), (40 : Int)) [] s3next pw0
      0 0 ((0 : Int), (0 : Int)) rfl (by decide) (by decide) (by decide)⟩

/-- C7: from any of the four direction states, a key requesting the exact
reverse direction leaves the direction unchanged, and any other direction
request sets the direction to the requested vector. -/
theorem reverse_direction_request_rejected (k : GKey) (dir : Pos) (hdir : dir ∈ validDirs) :
    (requestedDir k = (-dir.1, -dir.2) → (dispatchKey k dir).1 = dir)
    ∧ (requestedDir k ≠ (-dir.1, -dir.2) → (dispatchKey k dir).1 = requestedDir k) := by
  simp only [validDirs, List.mem_cons, List.not_mem_nil, or_false] at hdir
  rcases hdir with rfl | rfl | rfl | rfl <;> cases k <;> exact (by decide)

/-- C7 witness: while moving right, a left-request is ignored and an
up-request is honoured. -/
theorem reverse_direction_request_rejected_witness :
    dirRight ∈ validDirs
    ∧ (dispatchKey GKey.kLeft dirRight).1 = dirRight
    ∧ (dispatchKey GKey.kUp dirRight).1 = requestedDir GKey.kUp :=
  ⟨by decide,
    (reverse_direction_request_rejected GKey.kLeft dirRight (by decide)).1 (by decide),
    (reverse_direction_request_rejected GKey.kUp dirRight (by decide)).2 (by decide)⟩

/-- C8: `save_score` sanitizes the name to `[A-Za-z0-9 ]` and trims it
(with a placeholder for an empty result), appends the entry, sorts
descending by score with ties in insertion order, and writes the top 5;
loading afterwards yields exactly that sorted, ≤ 5 entry list. -/
theorem record_score_sorted_roundtrip (name : List Char) (score : Int)
    (file : Option LBContent) :
    loadLeaderboard (saveScore name score file)
      = (sortEntriesDesc (loadLeaderboard file
          ++ [(⟨sanitizeName name, score⟩ : ScoreEntry)])).take 5
    ∧ (loadLeaderboard (saveScore name score file)).Pairwise (fun a b => b.score ≤ a.score)
    ∧ (loadLeaderboard (saveScore name score file)).length ≤ 5
    ∧ (∀ c ∈ sanitizeName name, allowedChar c = true)
    ∧ sanitizeName name ≠ []
    ∧ (∀ k : Int,
        (sortEntriesDesc (loadLeaderboard file
          ++ [(⟨sanitizeName name, score⟩ : ScoreEntry)])).filter (fun x => x.score == k)
        = (loadLeaderboard file
          ++ [(⟨sanitizeName name, score⟩ : ScoreEntry)]).filter (fun x => x.score == k)) := by
  refine ⟨rfl, ?_, ?_, ?_, ?_, fun k => filter_sortEntriesDesc k _⟩
  · exact List.Pairwise.sublist (List.take_sublist _ _)
      (pairwise_sortEntriesDesc (loadLeaderboard file
        ++ [(⟨sanitizeName name, score⟩ : ScoreEntry)]))
  · simp [saveScore, saveLeaderboard, loadLeaderboard, List.length_take]
  · intro c hc
    unfold sanitizeName at hc
    dsimp only at hc
    split at hc
    · revert hc
      revert c
      decide
    · have h1 : c ∈ name.filter allowedChar := mem_trimSpaces hc
      exact (List.mem_filter.mp h1).2
  · unfold sanitizeName
    dsimp only
    split
    · decide
    · assumption

/-- C8 witness: recording `Al*ice 99` with score 3 into an absent file
round-trips as the sanitized sorted singleton. -/
theorem record_score_sorted_roundtrip_witness :
    loadLeaderboard (saveScore testName 3 none)
      = (sortEntriesDesc (loadLeaderboard none
          ++ [(⟨sanitizeName testName, 3⟩ : ScoreEntry)])).take 5
    ∧ sanitizeName testName ≠ [] :=
  ⟨(record_score_sorted_roundtrip testName 3 none).1,
    (record_score_sorted_roundtrip testName 3 none).2.2.2.2.1⟩

/-- C9: the S key fires the save branch exactly when the snake is moving
up (the down-request is then rejected as a reversal and the `elif` chain
falls through); in every other direction state it is consumed as an
accepted move-down request and no save occurs. -/
theorem save_key_fires_only_moving_up (dir : Pos) (hdir : dir ∈ validDirs) :
    ((dispatchKey GKey.kS dir).2 = true ↔ dir = dirUp)
    ∧ (dir = dirUp → dispatchKey GKey.kS dir = (dirUp, true))
    ∧ (dir ≠ dirUp → dispatchKey GKey.kS dir = (dirDown, false)) := by
  simp only [validDirs, List.mem_cons, List.not_mem_nil, or_false] at hdir
  rcases hdir with rfl | rfl | rfl | rfl <;> exact (by decide)

/-- C9 witness: pressing S while moving up saves and keeps the direction. -/
theorem save_key_fires_only_moving_up_witness :
    dirUp ∈ validDirs
    ∧ (((dispatchKey GKey.kS dirUp).2 = true ↔ dirUp = dirUp)
      ∧ (dirUp = dirUp → dispatchKey GKey.kS dirUp = (dirUp, true))
      ∧ (dirUp ≠ dirUp → dispatchKey GKey.kS dirUp = (dirDown, false))) :=
  ⟨by decide, save_key_fires_only_moving_up dirUp (by decide)⟩

/-- C10: every `game_loop` entry consults the save file before its event
loop: a snapshot that parses and validates becomes the whole starting
state, interval re-derived from its active powerup; an absent or
unparseable file keeps the fresh state, and a rejected snapshot resets to
a fresh state — whose snake is the single segment at grid center. -/
theorem game_loop_always_autoloads (cfg : Config) (sk fk : Nat) (fp1 fp2 : Pos)
    (file : Option SaveContent) :
    (∀ d : SaveDoc, (loadGame file).1 = some (ParsedSave.good d) →
      (gameLoopInit cfg sk fk fp1 fp2 file).body = d.snake
      ∧ (gameLoopInit cfg sk fk fp1 fp2 file).direction = d.direction
      ∧ (gameLoopInit cfg sk fk fp1 fp2 file).foodPos = d.foodPos
      ∧ (gameLoopInit cfg sk fk fp1 fp2 file).obstacles = d.obstacles
      ∧ (gameLoopInit cfg sk fk fp1 fp2 file).powerups = d.powerups
      ∧ (gameLoopInit cfg sk fk fp1 fp2 file).score = d.score
      ∧ (gameLoopInit cfg sk fk fp1 fp2 file).powerupActive = d.powerupActive
      ∧ (gameLoopInit cfg sk fk fp1 fp2 file).powerupTimer = d.powerupTimer
      ∧ (gameLoopInit cfg sk fk fp1 fp2 file).interval = loadedInterval cfg.speed d.powerupActive)
    ∧ ((loadGame file).1 = none → gameLoopInit cfg sk fk fp1 fp2 file = freshState cfg sk fk fp1)
    ∧ ((loadGame file).1 = some ParsedSave.bad →
        gameLoopInit cfg sk fk fp1 fp2 file = freshState cfg sk fk fp2)
    ∧ (freshState cfg sk fk fp1).body = [startPos cfg] := by
  refine ⟨?_, ?_, ?_, rfl⟩
  · intro d hd
    unfold gameLoopInit
    rw [hd]
    exact ⟨rfl, rfl, rfl, rfl, rfl, rfl, rfl, rfl, rfl⟩
  · intro hd
    unfold gameLoopInit
    rw [hd]
  · intro hd
    unfold gameLoopInit
    rw [hd]

/-- C10 witness: starting `game_loop` over the saved snapshot `doc0`
resumes play from it, boosted interval re-derived. -/
theorem game_loop_always_autoloads_witness :
    (gameLoopInit cfg0 0 0 ((0 : Int), (0 : Int)) ((0 : Int), (0 : Int))
        (some (SaveContent.parsedGood doc0))).body = doc0.snake
    ∧ (gameLoopInit cfg0 0 0 ((0 : Int), (0 : Int)) ((0 : Int), (0 : Int))
        (some (SaveContent.parsedGood doc0))).direction = doc0.direction
    ∧ (gameLoopInit cfg0 0 0 ((0 : Int), (0 : Int)) ((0 : Int), (0 : Int))
        (some (SaveContent.parsedGood doc0))).foodPos = doc0.foodPos
    ∧ (gameLoopInit cfg0 0 0 ((0 : Int), (0 : Int)) ((0 : Int), (0 : Int))
        (some (SaveContent.parsedGood doc0))).obstacles = doc0.obstacles
    ∧ (gameLoopInit cfg0 0 0 ((0 : Int), (0 : Int)) ((0 : Int), (0 : Int))
        (some (SaveContent.parsedGood doc0))).powerups = doc0.powerups
    ∧ (gameLoopInit cfg0 0 0 ((0 : Int), (0 : Int)) ((0 : Int), (0 : Int))
        (some (SaveContent.parsedGood doc0))).score = doc0.score
    ∧ (gameLoopInit cfg0 0 0 ((0 : Int), (0 : Int)) ((0 : Int), (0 : Int))
        (some (SaveContent.parsedGood doc0))).powerupActive = doc0.powerupActive
    ∧ (gameLoopInit cfg0 0 0 ((0 : Int), (0 : Int)) ((0 : Int), (0 : Int))
        (some (SaveContent.parsedGood doc0))).powerupTimer = doc0.powerupTimer
    ∧ (gameLoopInit cfg0 0 0 ((0 : Int), (0 : Int)) ((0 : Int), (0 : Int))
        (some (SaveContent.parsedGood doc0))).interval
        = loadedInterval cfg0.speed doc0.powerupActive :=
  (game_loop_always_autoloads cfg0 0 0 ((0 : Int), (0 : Int)) ((0 : Int), (0 : Int))
    (some (SaveContent.parsedGood doc0))).1 doc0 rfl

end SnakeGame
